import Mathlib

/-!
Verification of the `Geoplot` scheduling facade (`acplotoo/geoplot.py`).

The Python class is embedded shallowly:

* Python values that appear in payloads are modelled by the inductive
  type `Py`.  Numeric arrays carry exact rationals (`Py.ratArr`); the
  results of `np.sin`/`np.cos` are real numbers (`Py.realArr`); float
  arrays that may contain non-finite entries produced by a division by
  zero are `Py.floatArr` with `Option ℚ` entries, `Option.none` standing
  for the IEEE non-finite results (nan or inf) that numpy produces
  instead of raising.
* Keyword-argument dictionaries are association lists with Python
  `dict` update semantics (`dictSet`, `dictMerge`).
* The object state is the structure `Geoplot`.  Each method becomes a
  pure function on it; methods that can raise return
  `Geoplot × Option PyErr`, the state component being the state at the
  moment the exception propagates (Python does not roll back).
* A ghost `trace` field records, in order, every append to the
  `_scheduled` list and every `_schedule_callback()` invocation, so
  ordering claims can be stated.
-/

namespace Acplotoo

/-- Shallow model of the Python values handled by the class. -/
inductive Py where
  | none : Py
  | bool : Bool → Py
  | rat : ℚ → Py
  | str : String → Py
  | ratArr : List ℚ → Py
  | floatArr : List (Option ℚ) → Py
  | realArr : List ℝ → Py
  | tup : List Py → Py
  | dict : List (String × Py) → Py

/-- A Python keyword-argument dictionary, as an association list. -/
abbrev Dict := List (String × Py)

/-- `d[k]` lookup: first entry with the key. -/
def dictGet (d : Dict) (k : String) : Option Py :=
  (d.find? (fun p => p.1 == k)).map (fun p => p.2)

/-- `k in d`. -/
def dictContains (d : Dict) (k : String) : Bool :=
  d.any (fun p => p.1 == k)

/-- `d[k] = v`: overwrite in place when the key exists, else append
(Python dict insertion-order semantics). -/
def dictSet (d : Dict) (k : String) (v : Py) : Dict :=
  if dictContains d k then d.map (fun p => if p.1 == k then (k, v) else p)
  else d ++ [(k, v)]

/-- Python `\x7b**a, **b\x7d`: entries of `b` override those of `a`. -/
def dictMerge (a b : Dict) : Dict :=
  b.foldl (fun d p => dictSet d p.1 p.2) a

/-- The exceptions the class raises. -/
inductive PyErr where
  | runtimeError (msg : String)
  | valueError (msg : String)
  | notImplementedError (msg : String)
deriving DecidableEq

/-- The non-fatal warnings the class emits (`warnings.warn`).  The only
one in this file is the `tensorfield_symmetric_2d` warning that the
keyword `color` passed to streamplot is being overridden. -/
inductive PyWarning where
  | colorOverridden
deriving DecidableEq

/-- Ghost trace events: an append to `_scheduled` (with the action kind
and the `executed` flag as written at the call site) and a
`_schedule_callback()` invocation. -/
inductive Event where
  | schedAppend (kind : String) (executed : Bool) (payload : Py)
  | callback

/-- The mutable state of a `Geoplot` object (the fields of the class and
of its base that the methods under verification read or write), plus
the ghost `trace`. -/
structure Geoplot where
  gshhg_path : Option String
  water_color : Py
  land_color : Py
  scheduled : List (String × Bool × Py)
  data_xlim : Option (ℚ × ℚ)
  data_ylim : Option (ℚ × ℚ)
  user_xlim : Option Py
  user_ylim : Option Py
  grid_on : Bool
  grid_constant : ℚ
  grid_anchor : ℚ × ℚ
  grid_kwargs_base : Dict
  grid_kwargs : Dict
  update_grid : Bool
  dirty : Bool
  warnings : List PyWarning
  trace : List Event

/-- Modelled from the spec: `_schedule_callback` is defined in the base
class `GeoplotBase`, whose source is not part of this repository slice.
Per the spec it is the hook that "marks the plot dirty and triggers
eventual redraw once view limits are known"; we model it as setting the
dirty flag and record the invocation in the ghost trace. -/
def schedule_callback (s : Geoplot) : Geoplot :=
  { s with dirty := true, trace := s.trace ++ [Event.callback] }

/-- `warnings.warn(...)`: record the warning; execution continues. -/
def warn (s : Geoplot) (w : PyWarning) : Geoplot :=
  { s with warnings := s.warnings ++ [w] }

/-- `Geoplot.set_xlim`. -/
def set_xlim (s : Geoplot) (xlim : Py) : Geoplot :=
  schedule_callback { s with user_xlim := some xlim }

/-- `Geoplot.set_ylim`. -/
def set_ylim (s : Geoplot) (ylim : Py) : Geoplot :=
  schedule_callback { s with user_ylim := some ylim }

/-- `Geoplot.coastline(level, water_color=None, land_color=None,
zorder=0, **kwargs)`.  Raises `RuntimeError` when no GSHHG path was
loaded; otherwise overwrites the stored colors for the non-`None`
arguments, appends the pending coastline action and schedules. -/
def coastline (s : Geoplot) (level : Py) (water_color land_color : Option Py)
    (zorder : Py) (kwargs : Dict) : Geoplot × Option PyErr :=
  match s.gshhg_path with
  | Option.none => (s, some (PyErr.runtimeError "GSHHG not loaded!"))
  | some _ =>
    let s1 := match water_color with
      | Option.none => s
      | some c => { s with water_color := c }
    let s2 := match land_color with
      | Option.none => s1
      | some c => { s1 with land_color := c }
    let payload := Py.tup [level, zorder, Py.dict kwargs]
    let s3 := { s2 with
      scheduled := s2.scheduled ++ [("coastline", false, payload)],
      trace := s2.trace ++ [Event.schedAppend "coastline" false payload] }
    (schedule_callback s3, Option.none)

/-- `Geoplot.grid(on=True, grid_constant=1.0, anchor_lon=0.0,
anchor_lat=0.0, **kwargs)`. -/
def grid (s : Geoplot) (grid_on : Bool) (grid_constant : ℚ)
    (anchor_lon anchor_lat : ℚ) (kwargs : Dict) : Geoplot :=
  let s1 := { s with
    grid_on := grid_on,
    grid_constant := grid_constant,
    grid_kwargs := dictMerge s.grid_kwargs_base kwargs,
    grid_anchor := (anchor_lon, anchor_lat) }
  let s2 :=
    if dictContains kwargs "linewidth" then s1
    else { s1 with grid_kwargs := dictSet s1.grid_kwargs "linewidth" (Py.rat 0.5) }
  schedule_callback { s2 with update_grid := true }

/-- `Geoplot.scatter(lon, lat, **kwargs)`. -/
def scatter (s : Geoplot) (lon lat : Py) (kwargs : Dict) : Geoplot :=
  let payload := Py.tup [lon, lat, Py.dict kwargs]
  let s1 := { s with
    scheduled := s.scheduled ++ [("scatter", false, payload)],
    trace := s.trace ++ [Event.schedAppend "scatter" false payload] }
  schedule_callback s1

/-- `Geoplot.quiver(lon, lat, u, v, c=None, **kwargs)`. -/
def quiver (s : Geoplot) (lon lat u v c : Py) (kwargs : Dict) : Geoplot :=
  let payload := Py.tup [lon, lat, u, v, c, Py.dict kwargs]
  let s1 := { s with
    scheduled := s.scheduled ++ [("quiver", false, payload)],
    trace := s.trace ++ [Event.schedAppend "quiver" false payload] }
  schedule_callback s1

/-- `Geoplot.streamplot_projected(x, y, u, v, **kwargs)`. -/
def streamplot_projected (s : Geoplot) (x y u v : Py) (kwargs : Dict) : Geoplot :=
  let payload := Py.tup [x, y, u, v, Py.dict kwargs]
  let s1 := { s with
    scheduled := s.scheduled ++ [("streamplot", false, payload)],
    trace := s.trace ++ [Event.schedAppend "streamplot" false payload] }
  schedule_callback s1

/-- `Geoplot.streamplot(lon, lat, u, v, **kwargs)`: unconditionally
raises `NotImplementedError` before touching any state. -/
def streamplot (s : Geoplot) (lon lat u v : Py) (kwargs : Dict) :
    Geoplot × Option PyErr :=
  (s, some (PyErr.notImplementedError "Geoplot.streamplot() not implemented yet."))

/-- `Geoplot.imshow_projected(z, xlim, ylim, **kwargs)`: widen the
running data bounds (min of lower, max of upper), then schedule the
imshow action. -/
def imshow_projected (s : Geoplot) (z : Py) (xlim ylim : ℚ × ℚ)
    (kwargs : Dict) : Geoplot :=
  let dx : ℚ × ℚ := match s.data_xlim with
    | Option.none => xlim
    | some d => (if xlim.1 < d.1 then xlim.1 else d.1,
                 if xlim.2 > d.2 then xlim.2 else d.2)
  let dy : ℚ × ℚ := match s.data_ylim with
    | Option.none => ylim
    | some d => (if ylim.1 < d.1 then ylim.1 else d.1,
                 if ylim.2 > d.2 then ylim.2 else d.2)
  let payload := Py.tup [z, Py.ratArr [xlim.1, xlim.2],
                         Py.ratArr [ylim.1, ylim.2], Py.dict kwargs]
  let s1 := { s with
    data_xlim := some dx,
    data_ylim := some dy,
    scheduled := s.scheduled ++ [("imshow", false, payload)],
    trace := s.trace ++ [Event.schedAppend "imshow" false payload] }
  schedule_callback s1

/-- `ndarray.min()`: `Option.none` models the `ValueError` numpy raises
on an empty array. -/
def npMin : List ℚ → Option ℚ
  | [] => Option.none
  | q :: qs => some (qs.foldl min q)

/-- `ndarray.max()`, as `npMin`. -/
def npMax : List ℚ → Option ℚ
  | [] => Option.none
  | q :: qs => some (qs.foldl max q)

/-- numpy float division: `Option.none` models the non-finite result
(nan or inf, with a `RuntimeWarning`) of dividing by zero; execution
continues with that value. -/
def npDiv (a b : ℚ) : Option ℚ :=
  if b = 0 then Option.none else some (a / b)

/-- `np.deg2rad`. -/
noncomputable def deg2rad (a : ℚ) : ℝ := (a : ℝ) * Real.pi / 180

/-- The direction component `u = np.sin(np.deg2rad(angle))` computed by
`tensorfield_symmetric_2d`. -/
noncomputable def tensorfield_u (angle : List ℚ) : List ℝ :=
  angle.map (fun a => Real.sin (deg2rad a))

/-- The direction component `v = np.cos(np.deg2rad(angle))` computed by
`tensorfield_symmetric_2d`. -/
noncomputable def tensorfield_v (angle : List ℚ) : List ℝ :=
  angle.map (fun a => Real.cos (deg2rad a))

/-- The line-width payload
`linewidth * (width - width.min())/(width.max() - width.min())` with
`width = t1 - t2`, computed by `tensorfield_symmetric_2d`.  The outer
`Option.none` models the `ValueError` of a reduction over an empty
array; an inner `Option.none` entry models a non-finite float from the
division by zero that occurs when `width.max() == width.min()`. -/
def tensorfield_linewidth (linewidth : ℚ) (t1 t2 : List ℚ) :
    Option (List (Option ℚ)) :=
  let width := List.zipWith (fun a b => a - b) t1 t2
  match npMin width, npMax width with
  | some wmin, some wmax =>
      some (width.map (fun w => npDiv (linewidth * (w - wmin)) (wmax - wmin)))
  | _, _ => Option.none

/-- `Geoplot.tensorfield_symmetric_2d(lon=None, lat=None, t1=None,
t2=None, angle=None, x=None, y=None, linewidth=1.0, **kwargs)`.
Validates the coordinate-pair and tensor arguments, computes the
direction and width fields, warns when a `color` keyword would be
overridden, then delegates: the geodetic branch calls `streamplot`
(forwarding the ORIGINAL `kwargs`, as the source does), the projected
branch calls `streamplot_projected` with the extended `kwdict`. -/
noncomputable def tensorfield_symmetric_2d (s : Geoplot)
    (lon lat t1 t2 angle x y : Option (List ℚ)) (linewidth : ℚ)
    (kwargs : Dict) : Geoplot × Option PyErr :=
  if (lon.isNone == x.isNone) || (lon.isNone != lat.isNone)
      || (x.isNone != y.isNone) then
    (s, some (PyErr.valueError
      "Exactly one of the pairs (lon,lat) or (x,y) have to be given!"))
  else if t1.isNone || t2.isNone || angle.isNone then
    (s, some (PyErr.valueError "Tensor has to be given!"))
  else
    let color := t1.getD []
    let u := tensorfield_u (angle.getD [])
    let v := tensorfield_v (angle.getD [])
    let s1 := if dictContains kwargs "color" then warn s PyWarning.colorOverridden
              else s
    match tensorfield_linewidth linewidth (t1.getD []) (t2.getD []) with
    | Option.none =>
        (s1, some (PyErr.valueError "zero-size array to reduction operation"))
    | some lwArr =>
        let kwdict := dictSet (dictSet kwargs "linewidth" (Py.floatArr lwArr))
                              "color" (Py.ratArr color)
        if lon.isSome then
          streamplot s1 (Py.ratArr (lon.getD [])) (Py.ratArr (lat.getD []))
            (Py.realArr u) (Py.realArr v) kwargs
        else
          (streamplot_projected s1 (Py.ratArr (x.getD [])) (Py.ratArr (y.getD []))
            (Py.realArr u) (Py.realArr v) kwdict, Option.none)

/-- A representative freshly constructed plot state with no GSHHG path
and no limits set (the constructor defaults). -/
def testState : Geoplot :=
  { gshhg_path := Option.none
    water_color := Py.str "lightblue"
    land_color := Py.str "white"
    scheduled := []
    data_xlim := Option.none
    data_ylim := Option.none
    user_xlim := Option.none
    user_ylim := Option.none
    grid_on := false
    grid_constant := 1
    grid_anchor := (0, 0)
    grid_kwargs_base := []
    grid_kwargs := []
    update_grid := false
    dirty := false
    warnings := []
    trace := [] }

/-- `testState` with a GSHHG path loaded. -/
def testStateG : Geoplot := { testState with gshhg_path := some "gshhg" }

/-- `testState` with running data bounds already set. -/
def testStateD : Geoplot :=
  { testState with data_xlim := some (0, 10), data_ylim := some (0, 5) }

/-- `testState` with a previous grid configuration stored. -/
def testStateGrid : Geoplot :=
  { testState with grid_on := true, grid_kwargs := [("color", Py.str "gray")] }

/-- Lookup after `dictSet` at the same key yields the stored value. -/
theorem dictGet_dictSet_self (d : Dict) (k : String) (v : Py) :
    dictGet (dictSet d k v) k = some v := by
  unfold dictSet
  by_cases h : dictContains d k
  · simp only [h, if_true]
    unfold dictContains at h
    induction d with
    | nil => simp at h
    | cons p d ih =>
      by_cases hp : p.1 == k
      · simp [dictGet, List.find?, hp]
      · simp only [List.any_cons, hp, Bool.false_or] at h
        simpa [dictGet, List.find?, hp] using ih h
  · simp only [h, if_false]
    unfold dictContains at h
    induction d with
    | nil => simp [dictGet, List.find?]
    | cons p d ih =>
      simp only [List.any_cons, Bool.or_eq_true, not_or] at h
      have hp : (p.1 == k) = false := by
        cases hpk : p.1 == k
        · rfl
        · exact absurd hpk h.1
      simpa [dictGet, List.find?, hp] using ih (by simp [h.2])

/-- C4: for every input, the geodetic `streamplot` fails with a
not-implemented error, and it returns the state unchanged — no pending
action is appended and no plot state is mutated. -/
theorem C4_streamplot_not_implemented (s : Geoplot) (lon lat u v : Py)
    (kw : Dict) :
    streamplot s lon lat u v kw
      = (s, some (PyErr.notImplementedError
          "Geoplot.streamplot() not implemented yet.")) := rfl

/-- C5: calling `coastline` when no GSHHG path is loaded fails with the
`RuntimeError` configuration error for every combination of the other
arguments, and the state — in particular the scheduled-action list — is
returned unchanged. -/
theorem C5_coastline_no_gshhg (s : Geoplot) (level : Py) (wc lc : Option Py)
    (zorder : Py) (kw : Dict) (h : s.gshhg_path = Option.none) :
    coastline s level wc lc zorder kw
      = (s, some (PyErr.runtimeError "GSHHG not loaded!")) := by
  simp [coastline, h]

/-- C5 witness. -/
theorem C5_witness :
    coastline testState (Py.rat 1) Option.none Option.none (Py.rat 0) []
      = (testState, some (PyErr.runtimeError "GSHHG not loaded!")) :=
  C5_coastline_no_gshhg testState (Py.rat 1) Option.none Option.none
    (Py.rat 0) [] rfl

/-- C7: every `scatter` call appends exactly one pending action of kind
"scatter" with payload `(lon, lat, kwargs)` and `executed = false` to
the scheduled list, and invokes the schedule callback (which marks the
plot dirty) once, after the append. -/
theorem C7_scatter_schedules (s : Geoplot) (lon lat : Py) (kw : Dict) :
    (scatter s lon lat kw).scheduled
        = s.scheduled ++ [("scatter", false, Py.tup [lon, lat, Py.dict kw])] ∧
    (scatter s lon lat kw).trace
        = s.trace ++ [Event.schedAppend "scatter" false
            (Py.tup [lon, lat, Py.dict kw]), Event.callback] ∧
    (scatter s lon lat kw).dirty = true := by
  refine ⟨rfl, ?_, rfl⟩
  simp [scatter, schedule_callback]

/-- C10: `coastline` leaves the stored water color unchanged whenever
`water_color is None` (both on the error path and on the scheduling
path), likewise for the land color, and overwrites exactly the color
whose argument is not `None` (when the call proceeds past the GSHHG
check). -/
theorem C10_coastline_color_frame :
    (∀ (s : Geoplot) (level : Py) (lc : Option Py) (zorder : Py) (kw : Dict),
        (coastline s level Option.none lc zorder kw).1.water_color
          = s.water_color) ∧
    (∀ (s : Geoplot) (level : Py) (wc : Option Py) (zorder : Py) (kw : Dict),
        (coastline s level wc Option.none zorder kw).1.land_color
          = s.land_color) ∧
    (∀ (s : Geoplot) (level c : Py) (lc : Option Py) (zorder : Py) (kw : Dict)
        (p : String), s.gshhg_path = some p →
        (coastline s level (some c) lc zorder kw).1.water_color = c) ∧
    (∀ (s : Geoplot) (level c : Py) (wc : Option Py) (zorder : Py) (kw : Dict)
        (p : String), s.gshhg_path = some p →
        (coastline s level wc (some c) zorder kw).1.land_color = c) := by
  refine ⟨?_, ?_, ?_, ?_⟩
  · intro s level lc zorder kw
    cases h : s.gshhg_path <;> cases lc <;> simp [coastline, h, schedule_callback]
  · intro s level wc zorder kw
    cases h : s.gshhg_path <;> cases wc <;> simp [coastline, h, schedule_callback]
  · intro s level c lc zorder kw p h
    cases lc <;> simp [coastline, h, schedule_callback]
  · intro s level c wc zorder kw p h
    cases wc <;> simp [coastline, h, schedule_callback]

/-- C10 witness. -/
theorem C10_witness :
    (coastline testStateG (Py.rat 1) (some (Py.str "blue")) Option.none
        (Py.rat 0) []).1.water_color = Py.str "blue" :=
  C10_coastline_color_frame.2.2.1 testStateG (Py.rat 1) (Py.str "blue")
    Option.none (Py.rat 0) [] "gshhg" rfl

/-- C9: each scheduling method appends its pending action with
`executed = false` and invokes the schedule callback exactly once,
immediately after the append — the ghost trace of every such call is
the old trace followed by exactly one append event (flag `false`) and
then exactly one callback event.  For `coastline` this holds whenever
the GSHHG check passes (otherwise nothing is appended at all). -/
theorem C9_append_then_callback :
    (∀ (s : Geoplot) (p : String) (level : Py) (wc lc : Option Py)
        (zorder : Py) (kw : Dict), s.gshhg_path = some p →
        (coastline s level wc lc zorder kw).1.trace
          = s.trace ++ [Event.schedAppend "coastline" false
              (Py.tup [level, zorder, Py.dict kw]), Event.callback]) ∧
    (∀ (s : Geoplot) (lon lat : Py) (kw : Dict),
        (scatter s lon lat kw).trace
          = s.trace ++ [Event.schedAppend "scatter" false
              (Py.tup [lon, lat, Py.dict kw]), Event.callback]) ∧
    (∀ (s : Geoplot) (lon lat u v c : Py) (kw : Dict),
        (quiver s lon lat u v c kw).trace
          = s.trace ++ [Event.schedAppend "quiver" false
              (Py.tup [lon, lat, u, v, c, Py.dict kw]), Event.callback]) ∧
    (∀ (s : Geoplot) (x y u v : Py) (kw : Dict),
        (streamplot_projected s x y u v kw).trace
          = s.trace ++ [Event.schedAppend "streamplot" false
              (Py.tup [x, y, u, v, Py.dict kw]), Event.callback]) ∧
    (∀ (s : Geoplot) (z : Py) (xl yl : ℚ × ℚ) (kw : Dict),
        (imshow_projected s z xl yl kw).trace
          = s.trace ++ [Event.schedAppend "imshow" false
              (Py.tup [z, Py.ratArr [xl.1, xl.2], Py.ratArr [yl.1, yl.2],
                Py.dict kw]), Event.callback]) := by
  refine ⟨?_, ?_, ?_, ?_, ?_⟩
  · intro s p level wc lc zorder kw h
    cases wc <;> cases lc <;> simp [coastline, h, schedule_callback]
  · intro s lon lat kw
    simp [scatter, schedule_callback]
  · intro s lon lat u v c kw
    simp [quiver, schedule_callback]
  · intro s x y u v kw
    simp [streamplot_projected, schedule_callback]
  · intro s z xl yl kw
    simp [imshow_projected, schedule_callback]

/-- C9 witness. -/
theorem C9_witness :
    (coastline testStateG (Py.rat 1) Option.none Option.none (Py.rat 0)
        []).1.trace
      = testStateG.trace ++ [Event.schedAppend "coastline" false
          (Py.tup [Py.rat 1, Py.rat 0, Py.dict []]), Event.callback] :=
  C9_append_then_callback.1 testStateG "gshhg" (Py.rat 1) Option.none
    Option.none (Py.rat 0) [] rfl

/-- C2: whenever running data bounds are already set, `imshow_projected`
updates them to the min of the lower bounds and the max of the upper
bounds on each axis (hence the rectangle never narrows); consequently
the two consecutive calls with `xlim=[0,10], ylim=[0,5]` and then
`xlim=[-5,3], ylim=[2,8]` leave the running data bounds at
`xlim=[-5,10], ylim=[0,8]`. -/
theorem C2_imshow_data_bounds :
    (∀ (s : Geoplot) (z : Py) (xl yl dxl dyl : ℚ × ℚ) (kw : Dict),
        s.data_xlim = some dxl → s.data_ylim = some dyl →
        (imshow_projected s z xl yl kw).data_xlim
            = some (min xl.1 dxl.1, max xl.2 dxl.2) ∧
        (imshow_projected s z xl yl kw).data_ylim
            = some (min yl.1 dyl.1, max yl.2 dyl.2)) ∧
    ((imshow_projected (imshow_projected testState (Py.rat 0) (0, 10) (0, 5) [])
        (Py.rat 0) (-5, 3) (2, 8) []).data_xlim = some (-5, 10) ∧
     (imshow_projected (imshow_projected testState (Py.rat 0) (0, 10) (0, 5) [])
        (Py.rat 0) (-5, 3) (2, 8) []).data_ylim = some (0, 8)) := by
  have hmin : ∀ a b : ℚ, (if a < b then a else b) = min a b := by
    intro a b
    rcases lt_or_ge a b with h | h
    · rw [if_pos h, min_eq_left h.le]
    · rw [if_neg (not_lt.mpr h), min_eq_right h]
  have hmax : ∀ a b : ℚ, (if a > b then a else b) = max a b := by
    intro a b
    rcases lt_or_ge b a with h | h
    · rw [if_pos h, max_eq_left h.le]
    · rw [if_neg (not_lt.mpr h), max_eq_right h]
  have key : ∀ (s : Geoplot) (z : Py) (xl yl dxl dyl : ℚ × ℚ) (kw : Dict),
      s.data_xlim = some dxl → s.data_ylim = some dyl →
      (imshow_projected s z xl yl kw).data_xlim
          = some (min xl.1 dxl.1, max xl.2 dxl.2) ∧
      (imshow_projected s z xl yl kw).data_ylim
          = some (min yl.1 dyl.1, max yl.2 dyl.2) := by
    intro s z xl yl dxl dyl kw hx hy
    constructor
    · simp only [imshow_projected, hx, schedule_callback]
      rw [hmin, hmax]
    · simp only [imshow_projected, hy, schedule_callback]
      rw [hmin, hmax]
  refine ⟨key, ?_, ?_⟩
  · have h := (key (imshow_projected testState (Py.rat 0) (0, 10) (0, 5) [])
      (Py.rat 0) (-5, 3) (2, 8) (0, 10) (0, 5) [] rfl rfl).1
    rw [h]
    norm_num
  · have h := (key (imshow_projected testState (Py.rat 0) (0, 10) (0, 5) [])
      (Py.rat 0) (-5, 3) (2, 8) (0, 10) (0, 5) [] rfl rfl).2
    rw [h]
    norm_num

/-- C2 witness. -/
theorem C2_witness :
    (imshow_projected testStateD (Py.rat 0) (1, 12) (2, 7) []).data_xlim
        = some (min 1 0, max 12 10) ∧
    (imshow_projected testStateD (Py.rat 0) (1, 12) (2, 7) []).data_ylim
        = some (min 2 0, max 7 5) :=
  C2_imshow_data_bounds.1 testStateD (Py.rat 0) (1, 12) (2, 7) (0, 10) (0, 5)
    [] rfl rfl

/-- C8: a `grid` call replaces the stored grid configuration — on/off
flag, grid constant, anchor point and style dictionary — with values
determined by that call's arguments (and the fixed base style), wholly
independently of the previously stored configuration; and when the
call's style does not supply "linewidth", the stored grid style's
"linewidth" is the default `0.5`. -/
theorem C8_grid_replaces_config (s1 s2 : Geoplot) (onFlag : Bool)
    (gc alon alat : ℚ) (kw : Dict)
    (hbase : s1.grid_kwargs_base = s2.grid_kwargs_base) :
    ((grid s1 onFlag gc alon alat kw).grid_on = onFlag ∧
     (grid s1 onFlag gc alon alat kw).grid_constant = gc ∧
     (grid s1 onFlag gc alon alat kw).grid_anchor = (alon, alat) ∧
     (grid s1 onFlag gc alon alat kw).update_grid = true) ∧
    ((grid s1 onFlag gc alon alat kw).grid_on
        = (grid s2 onFlag gc alon alat kw).grid_on ∧
     (grid s1 onFlag gc alon alat kw).grid_constant
        = (grid s2 onFlag gc alon alat kw).grid_constant ∧
     (grid s1 onFlag gc alon alat kw).grid_anchor
        = (grid s2 onFlag gc alon alat kw).grid_anchor ∧
     (grid s1 onFlag gc alon alat kw).grid_kwargs
        = (grid s2 onFlag gc alon alat kw).grid_kwargs) ∧
    (dictContains kw "linewidth" = false →
      dictGet (grid s1 onFlag gc alon alat kw).grid_kwargs "linewidth"
        = some (Py.rat 0.5)) := by
  refine ⟨⟨?_, ?_, ?_, ?_⟩, ⟨?_, ?_, ?_, ?_⟩, ?_⟩ <;>
    by_cases h : dictContains kw "linewidth" <;>
      simp_all [grid, schedule_callback, dictGet_dictSet_self]

/-- C8 witness. -/
theorem C8_witness :
    ((grid testState true 2 3 4 []).grid_on = true ∧
     (grid testState true 2 3 4 []).grid_constant = 2 ∧
     (grid testState true 2 3 4 []).grid_anchor = (3, 4) ∧
     (grid testState true 2 3 4 []).update_grid = true) ∧
    ((grid testState true 2 3 4 []).grid_on
        = (grid testStateGrid true 2 3 4 []).grid_on ∧
     (grid testState true 2 3 4 []).grid_constant
        = (grid testStateGrid true 2 3 4 []).grid_constant ∧
     (grid testState true 2 3 4 []).grid_anchor
        = (grid testStateGrid true 2 3 4 []).grid_anchor ∧
     (grid testState true 2 3 4 []).grid_kwargs
        = (grid testStateGrid true 2 3 4 []).grid_kwargs) ∧
    (dictContains [] "linewidth" = false →
      dictGet (grid testState true 2 3 4 []).grid_kwargs "linewidth"
        = some (Py.rat 0.5)) :=
  C8_grid_replaces_config testState testStateGrid true 2 3 4 [] rfl

/-- The line-width payload is `some` (no empty-array reduction error)
whenever the tensor components are equally long and non-empty. -/
theorem tensorfield_linewidth_isSome (lw : ℚ) (t1 t2 : List ℚ)
    (hlen : t1.length = t2.length) (hne : t1 ≠ []) :
    ∃ arr, tensorfield_linewidth lw t1 t2 = some arr := by
  cases t1 with
  | nil => exact absurd rfl hne
  | cons a as =>
    cases t2 with
    | nil => simp at hlen
    | cons b bs => exact ⟨_, rfl⟩

/-- C1 counterexample: the call
`tensorfield_symmetric_2d(lon=[0], lat=[0], t1=[2], t2=[1], angle=[0])`
does not succeed — the geodetic branch delegates to `streamplot`, which
raises `NotImplementedError`. -/
theorem C1_counterexample :
    (tensorfield_symmetric_2d testState (some [0]) (some [0]) (some [2])
        (some [1]) (some [0]) Option.none Option.none 1 []).2
      = some (PyErr.notImplementedError
          "Geoplot.streamplot() not implemented yet.") := rfl

/-- C1 (amended): on input `lon=[0], lat=[0], t1=[2], t2=[1], angle=[0]`
the direction field computed before delegation is
`(u,v) = (sin 0, cos 0) = (0,1)`; the line-width normalization has
`width.max() == width.min()` for the single sample, so its division is
`0/0` and the computed payload entry is non-finite (nan, modelled
`Option.none`), not `0`; and the call itself fails with
`NotImplementedError` (leaving the state untouched), because the
geodetic branch delegates to the unimplemented `streamplot`. -/
theorem C1_tensorfield_single_sample :
    tensorfield_u [0] = [0] ∧ tensorfield_v [0] = [1] ∧
    tensorfield_linewidth 1 [2] [1] = some [Option.none] ∧
    tensorfield_symmetric_2d testState (some [0]) (some [0]) (some [2])
        (some [1]) (some [0]) Option.none Option.none 1 []
      = (testState, some (PyErr.notImplementedError
          "Geoplot.streamplot() not implemented yet.")) := by
  refine ⟨?_, ?_, by norm_num [tensorfield_linewidth, npMin, npMax, npDiv], rfl⟩
  · simp [tensorfield_u, deg2rad]
  · simp [tensorfield_v, deg2rad]

/-- C3: `tensorfield_symmetric_2d` fails with a `ValueError` whenever
both coordinate pairs are supplied, or exactly one member of a pair is
supplied, or neither pair is supplied, or any of `t1`, `t2`, `angle` is
missing. -/
theorem C3_tensorfield_validation (s : Geoplot)
    (lon lat t1 t2 angle x y : Option (List ℚ)) (lw : ℚ) (kw : Dict)
    (h : (lon.isSome ∧ lat.isSome ∧ x.isSome ∧ y.isSome)
       ∨ lon.isSome ≠ lat.isSome ∨ x.isSome ≠ y.isSome
       ∨ (lon.isNone ∧ lat.isNone ∧ x.isNone ∧ y.isNone)
       ∨ t1.isNone ∨ t2.isNone ∨ angle.isNone) :
    ∃ m, (tensorfield_symmetric_2d s lon lat t1 t2 angle x y lw kw).2
        = some (PyErr.valueError m) := by
  rcases lon with _ | lv <;> rcases lat with _ | av <;>
    rcases x with _ | xv <;> rcases y with _ | yv <;>
      rcases t1 with _ | t1v <;> rcases t2 with _ | t2v <;>
        rcases angle with _ | anv <;>
          first
            | exact ⟨_, rfl⟩
            | simp at h

/-- C3 witness. -/
theorem C3_witness :
    ∃ m, (tensorfield_symmetric_2d testState (some [0]) (some [0]) (some [2])
        (some [1]) (some [0]) (some [0]) (some [0]) 1 []).2
      = some (PyErr.valueError m) :=
  C3_tensorfield_validation testState (some [0]) (some [0]) (some [2])
    (some [1]) (some [0]) (some [0]) (some [0]) 1 [] (Or.inl (by decide))

/-- C6 counterexample: passing `color="red"` into
`tensorfield_symmetric_2d` with the geodetic pair `(lon,lat)` does not
succeed — the geodetic branch delegates to `streamplot`, which raises
`NotImplementedError`. -/
theorem C6_counterexample :
    (tensorfield_symmetric_2d testState (some [0]) (some [0]) (some [2])
        (some [1]) (some [0]) Option.none Option.none 1
        [("color", Py.str "red")]).2
      = some (PyErr.notImplementedError
          "Geoplot.streamplot() not implemented yet.") := rfl

/-- C6 (amended): when the projected pair `(x,y)` is supplied (with
non-empty, equally long tensor components), a call that passes a
`color` style key succeeds, emits the non-fatal override warning, and
forwards the internally computed color `t1` — not the caller's value —
to `streamplot_projected`; when the geodetic pair `(lon,lat)` is
supplied instead, the warning is still emitted but the call then fails
with `NotImplementedError` (and the extended dictionary is discarded:
the geodetic branch forwards the original `kwargs`). -/
theorem C6_tensorfield_color_override :
    (∀ (s : Geoplot) (xv yv t1v t2v anv : List ℚ) (lw : ℚ) (kw : Dict),
        dictContains kw "color" = true → t1v.length = t2v.length →
        t1v ≠ [] →
        ∃ lwArr,
          tensorfield_symmetric_2d s Option.none Option.none (some t1v)
              (some t2v) (some anv) (some xv) (some yv) lw kw
            = (streamplot_projected (warn s PyWarning.colorOverridden)
                (Py.ratArr xv) (Py.ratArr yv)
                (Py.realArr (tensorfield_u anv))
                (Py.realArr (tensorfield_v anv))
                (dictSet (dictSet kw "linewidth" (Py.floatArr lwArr))
                  "color" (Py.ratArr t1v)), Option.none) ∧
          dictGet (dictSet (dictSet kw "linewidth" (Py.floatArr lwArr))
              "color" (Py.ratArr t1v)) "color" = some (Py.ratArr t1v)) ∧
    (∀ (s : Geoplot) (lonv latv t1v t2v anv : List ℚ) (lw : ℚ) (kw : Dict),
        dictContains kw "color" = true → t1v.length = t2v.length →
        t1v ≠ [] →
        tensorfield_symmetric_2d s (some lonv) (some latv) (some t1v)
            (some t2v) (some anv) Option.none Option.none lw kw
          = (warn s PyWarning.colorOverridden,
             some (PyErr.notImplementedError
               "Geoplot.streamplot() not implemented yet."))) := by
  constructor
  · intro s xv yv t1v t2v anv lw kw hc hlen hne
    obtain ⟨arr, harr⟩ := tensorfield_linewidth_isSome lw t1v t2v hlen hne
    refine ⟨arr, ?_, dictGet_dictSet_self _ _ _⟩
    simp [tensorfield_symmetric_2d, hc, harr]
  · intro s lonv latv t1v t2v anv lw kw hc hlen hne
    obtain ⟨arr, harr⟩ := tensorfield_linewidth_isSome lw t1v t2v hlen hne
    simp [tensorfield_symmetric_2d, hc, harr, streamplot]

/-- C6 witness. -/
theorem C6_witness :
    ∃ lwArr,
      tensorfield_symmetric_2d testState Option.none Option.none (some [2])
          (some [1]) (some [0]) (some [0]) (some [0]) 1
          [("color", Py.str "red")]
        = (streamplot_projected (warn testState PyWarning.colorOverridden)
            (Py.ratArr [0]) (Py.ratArr [0]) (Py.realArr (tensorfield_u [0]))
            (Py.realArr (tensorfield_v [0]))
            (dictSet (dictSet [("color", Py.str "red")] "linewidth"
              (Py.floatArr lwArr)) "color" (Py.ratArr [2])), Option.none) ∧
      dictGet (dictSet (dictSet [("color", Py.str "red")] "linewidth"
          (Py.floatArr lwArr)) "color" (Py.ratArr [2])) "color"
        = some (Py.ratArr [2]) :=
  C6_tensorfield_color_override.1 testState [0] [0] [2] [1] [0] 1
    [("color", Py.str "red")] (by decide) (by decide) (by decide)

end Acplotoo
